import Mathlib

/-!
Verification of the dsa110-hwmc monitor-and-control daemon against its
natural-language specification.

The definitions below are a shallow embedding of the Python source:

* `src/hwmc/write_config.py` (`write_config_to_flash`) — the calibration
  writer, modelled by `cal_check` / `write_config_ops`;
* `src/hwmc/dsa_labjack.py` — discovery (`discoverScan`), digital status
  decoding (`decode_dig`), command dispatch (`execute_cmd` and the
  handler functions), calibration fetch (`check_cal`);
* `src/hwmc/lua_script_utilities.py` — script resolution
  (`validate_file`) and compression (`lua_compress`).

Python floats appearing in NaN-sensitive comparisons are modelled by
`PyFloat` (a rational or NaN) with Python's comparison semantics;
Python exceptions are modelled with `Except PyErr`.
-/

/-- Model of a Python float where NaN behaviour matters: either NaN or a
numeric value (modelled exactly as a rational). -/
inductive PyFloat where
  | nan : PyFloat
  | val : ℚ → PyFloat
deriving DecidableEq

/-- Python `x != y` on floats: any comparison involving NaN is unequal. -/
def pyNe : PyFloat → PyFloat → Bool
  | PyFloat.nan, _ => true
  | _, PyFloat.nan => true
  | PyFloat.val a, PyFloat.val b => decide (a ≠ b)

/-- Python `x - y` on floats: NaN propagates. -/
def pySub : PyFloat → PyFloat → PyFloat
  | PyFloat.nan, _ => PyFloat.nan
  | _, PyFloat.nan => PyFloat.nan
  | PyFloat.val a, PyFloat.val b => PyFloat.val (a - b)

/-- Python `abs(x)` on floats: NaN propagates. -/
def pyAbs : PyFloat → PyFloat
  | PyFloat.nan => PyFloat.nan
  | PyFloat.val a => PyFloat.val |a|

/-- Python `x > y` on floats: any comparison involving NaN is `False`. -/
def pyGt : PyFloat → PyFloat → Bool
  | PyFloat.nan, _ => false
  | _, PyFloat.nan => false
  | PyFloat.val a, PyFloat.val b => decide (b < a)

/-- Low-level flash / Lua operations issued by `write_config_to_flash`
(reads of the stored table are modelled by the `flash` argument below
and are not operations of interest). -/
inductive FlashOp where
  | erase : FlashOp
  | write : ℕ → PyFloat → FlashOp
  | luaStop : FlashOp
  | luaStart : FlashOp
deriving DecidableEq

/-- The comparison loop of `write_config_to_flash`
(src/hwmc/write_config.py lines 45-57): for each candidate value, read the
stored value at the current address and compare with
`if (old != old) or (abs(old - value) > 0.001): same = False`; the read
address advances by 4 per slot.  `flash addr` models
`eReadAddressArray(..., INTERNAL_FLASH_READ, ...)` after setting the read
pointer to `addr`.  Returns the final value of `same`. -/
def cal_check : List PyFloat → ℕ → (ℕ → PyFloat) → Bool
  | [], _, _ => true
  | value :: rest, addr, flash =>
    let old := flash addr
    (!(pyNe old old || pyGt (pyAbs (pySub old value)) (PyFloat.val (1/1000)))) &&
      cal_check rest (addr + 4) flash

/-- The sequential write loop of `write_config_to_flash` (lines 76-81):
one `eWriteAddresses` frame per value, at addresses advancing by 4. -/
def writeSeq : List PyFloat → ℕ → List FlashOp
  | [], _ => []
  | value :: rest, addr => FlashOp.write addr value :: writeSeq rest (addr + 4)

/-- Model of `write_config_to_flash(lj_handle, cal_table)`
(src/hwmc/write_config.py): compare each candidate slot against the stored
table; if all slots match, do nothing; otherwise erase the flash region,
write every value sequentially, then stop the Lua script twice and start
it once.  The returned list is the sequence of flash/Lua operations. -/
def write_config_ops (flash : ℕ → PyFloat) (cal_table : List PyFloat) : List FlashOp :=
  if cal_check cal_table 0 flash then []
  else FlashOp.erase :: (writeSeq cal_table 0 ++
    [FlashOp.luaStop, FlashOp.luaStop, FlashOp.luaStart])

/-- Number of parameters of `def write_config_to_flash(lj_handle, cal_table)`
(src/hwmc/write_config.py line 30). -/
def write_config_num_params : ℕ := 2

/-- Number of positional arguments passed at the call sites
`write_config_to_flash(self.lj_handle, self.ant_num, cal_table)`
(src/hwmc/dsa_labjack.py lines 419 and 431). -/
def check_cal_num_args : ℕ := 3

/-- Python errors raised by the modelled code paths. -/
inductive PyErr where
  | keyError : PyErr
  | typeError : PyErr
  | attributeError : PyErr
  | jsonError : PyErr
  | indexError : PyErr
deriving DecidableEq

/-- Model of `DsaAntLabJack._check_cal` (src/hwmc/dsa_labjack.py lines
410-423): when the store connection is valid and the calibration key holds
a document, call `write_config_to_flash` — with three positional
arguments.  A Python call whose argument count differs from the callee's
parameter count raises `TypeError` before the callee body runs.  When no
document is stored, the miss is logged and nothing happens.  The same
call shape occurs in `_execute_cal` (lines 424-434), invoked from the
calibration watch callback. -/
def check_cal (etcd_valid : Bool) (stored : Option (List PyFloat)) (flash : ℕ → PyFloat) :
    Except PyErr (List FlashOp) :=
  if etcd_valid then
    match stored with
    | some cal_table =>
      if check_cal_num_args = write_config_num_params then
        Except.ok (write_config_ops flash cal_table)
      else Except.error PyErr.typeError
    | none => Except.ok []
  else Except.ok []

/-- `Constants.ANT_TYPE` (src/hwmc/dsa_labjack.py line 917). -/
def ANT_TYPE : ℕ := 1

/-- `Constants.BEB_TYPE` (src/hwmc/dsa_labjack.py line 918). -/
def BEB_TYPE : ℕ := 2

/-- A module as seen by the discovery loop: whether `ljm.open` succeeds for
it, and the type/location pair `_get_type_and_location` would report. -/
structure LJModule where
  openOk : Bool
  ty : ℕ
  loc : ℕ
deriving DecidableEq

/-- State threaded through the discovery loop of `DiscoverT7.__init__`:
the `num_found` counter and the antenna / backend session maps (modelled
as lists of locations, in insertion order). -/
structure DiscoverState where
  num_found : ℕ
  ants : List ℕ
  bebs : List ℕ
deriving DecidableEq

/-- Model of the per-module loop body of `DiscoverT7.__init__`
(src/hwmc/dsa_labjack.py lines 109-138).  For each module: try
`ljm.open`; on `LJMError` the code runs `self.num_found -= self.num_found`
(which sets the counter to zero, since `n - n = 0`) and, if the counter is
now `<= 0` (always true), returns from the constructor, abandoning the
remaining modules.  On success the module is classified and added to the
`ants` or `bebs` map (type `NULL_TYPE` is skipped). -/
def discoverScan : List LJModule → DiscoverState → DiscoverState
  | [], st => st
  | m :: rest, st =>
    if m.openOk then
      let st' :=
        if m.ty = ANT_TYPE then { st with ants := st.ants ++ [m.loc] }
        else if m.ty = BEB_TYPE then { st with bebs := st.bebs ++ [m.loc] }
        else st
      discoverScan rest st'
    else
      let st' := { st with num_found := st.num_found - st.num_found }
      if st'.num_found ≤ 0 then st'
      else discoverScan rest st'

/-- The decoded digital monitor points extracted from the raw digital
status word in `DsaAntLabJack._get_data` (src/hwmc/dsa_labjack.py lines
505-515). -/
structure DigStatus where
  emergency_off : Bool
  drv_cmd : ℕ
  drv_act : ℕ
  brake_on : Bool
  at_north_lim : Bool
  at_south_lim : Bool
  fan_err : Bool
  noise_a_on : Bool
  noise_b_on : Bool
deriving DecidableEq

/-- Model of the digital-word decoding in `DsaAntLabJack._get_data`
(src/hwmc/dsa_labjack.py lines 505-515), with
`dig_val = int(a_values[15])` taken as the natural number `w`.
`bool(x)` is modelled as `x ≠ 0`; Python's `1 - b` on a bit `b` is `1 - b`
in ℕ (truncated subtraction agrees since `b ∈ {0, 1}`). -/
def decode_dig (w : ℕ) : DigStatus :=
  { emergency_off := decide ((w >>> 8) &&& 1 ≠ 0)
    drv_cmd := (w >>> 9) &&& 3
    drv_act := (w >>> 14) &&& 3
    brake_on := decide (1 - ((w >>> 13) &&& 1) ≠ 0)
    at_north_lim := decide (1 - ((w >>> 20) &&& 1) ≠ 0)
    at_south_lim := decide (1 - ((w >>> 21) &&& 1) ≠ 0)
    fan_err := decide ((w >>> 22) &&& 1 ≠ 0)
    noise_a_on := decide (1 - ((w >>> 11) &&& 1) ≠ 0)
    noise_b_on := decide (1 - ((w >>> 12) &&& 1) ≠ 0) }

/-- ASCII case map of Python's `str.lower()` for one character (the
command names and arguments this code lower-cases are ASCII). -/
def pyLowerChar (c : Char) : Char :=
  if 'A' ≤ c ∧ c ≤ 'Z' then Char.ofNat (c.toNat + 32) else c

/-- Model of Python's `str.lower()` (ASCII subset). -/
def pyLowerStr (s : String) : String :=
  String.mk (s.data.map pyLowerChar)

/-- A Python float as produced by `float()`: a finite value (modelled
exactly as a rational), a signed infinity (`float('inf')` /
`float('-inf')`), or NaN (`float('nan')`, sign ignored). -/
inductive PyFloatLit where
  | fin : ℚ → PyFloatLit
  | inf : Bool → PyFloatLit
  | nan : PyFloatLit
deriving DecidableEq

/-- A Python value as delivered by JSON decoding of a command document,
or produced from one by the dispatch code (`float()` coercion can yield
an infinity or NaN). -/
inductive PyVal where
  | str : String → PyVal
  | int : ℤ → PyVal
  | float : PyFloatLit → PyVal
  | bool : Bool → PyVal
  | none : PyVal
deriving DecidableEq

/-- A hardware operation issued by a command handler: a named register
write (`ljm.eWriteName`) or the script-load sequence of `load_script`. -/
inductive HwWrite where
  | reg : String → PyVal → HwWrite
  | script : PyVal → HwWrite
deriving DecidableEq

/-- Whitespace characters stripped by Python's `str.strip()` and by
`float()` argument normalization. -/
def isPySpace (c : Char) : Bool :=
  c = ' ' || c = '\t' || c = '\n' || c = '\r' || c = '\x0b' || c = '\x0c'

/-- Leading `digitpart` of a Python numeric string, as digit values,
together with the remainder.  Per the CPython grammar
(`digitpart ::= digit (["_"] digit)*`) a single underscore may separate
two digits and is skipped; an underscore not followed by a digit is left
in the remainder (making the overall parse fail, as `float()` does). -/
def takeDigits : List Char → List ℕ × List Char
  | [] => ([], [])
  | [c] => if c.isDigit then ([c.toNat - 48], []) else ([], [c])
  | c :: c1 :: cs =>
    if c.isDigit then
      if c1 = '_' then
        match cs with
        | c2 :: _ =>
          if c2.isDigit then
            let (ds, rest) := takeDigits cs
            ((c.toNat - 48) :: ds, rest)
          else ((c.toNat - 48) :: [], c1 :: cs)
        | [] => ([c.toNat - 48], c1 :: cs)
      else
        let (ds, rest) := takeDigits (c1 :: cs)
        ((c.toNat - 48) :: ds, rest)
    else ([], c :: c1 :: cs)

/-- Value of a list of decimal digit values read left to right. -/
def digitsVal (ds : List ℕ) : ℕ := ds.foldl (fun a d => 10 * a + d) 0

/-- Unsigned part of a Python decimal float literal:
`digits [. digits] [e [sign] digits]`, with at least one mantissa digit. -/
def pyFloatCore (cs : List Char) : Option ℚ :=
  let (ip, r1) := takeDigits cs
  let (fp, r2) :=
    match r1 with
    | '.' :: rest => takeDigits rest
    | _ => ([], r1)
  if ip = [] ∧ fp = [] then Option.none
  else
    let mantissa : ℚ := (digitsVal ip : ℚ) + (digitsVal fp : ℚ) / (10 ^ fp.length)
    match r2 with
    | [] => some mantissa
    | 'e' :: rest =>
      let (esign, r3) : ℤ × List Char :=
        match rest with
        | '+' :: r => (1, r)
        | '-' :: r => (-1, r)
        | r => (1, r)
      let (eds, r4) := takeDigits r3
      if eds = [] ∨ r4 ≠ [] then Option.none
      else some (mantissa * (10 : ℚ) ^ (esign * (digitsVal eds : ℤ)))
    | _ => Option.none

/-- The sign-stripped body accepted by `float()` (already lower-cased):
the exact spellings `inf`, `infinity` and `nan`, or a finite decimal
literal parsed by `pyFloatCore`; `neg` is the sign read before it (the
sign of a NaN is ignored, as Python's value equality does). -/
def pyFloatNamed (cs : List Char) (neg : Bool) : Option PyFloatLit :=
  if cs = ['i', 'n', 'f'] ∨ cs = ['i', 'n', 'f', 'i', 'n', 'i', 't', 'y'] then
    some (PyFloatLit.inf neg)
  else if cs = ['n', 'a', 'n'] then some PyFloatLit.nan
  else (pyFloatCore cs).map (fun q => PyFloatLit.fin (if neg then -q else q))

/-- Model of CPython's `float(s)` on an ASCII string: surrounding
whitespace is stripped, case is ignored, and an optional sign precedes
either a finite decimal literal (single underscores allowed between
digits), `inf`, `infinity` or `nan`; any other ASCII string raises
`ValueError` (modelled as `Option.none`).  CPython additionally
normalizes non-ASCII Unicode decimal digits and spaces before parsing;
those inputs are outside this model, and the theorems quantifying over
rejected strings restrict themselves to ASCII. -/
def pyFloatOfString (s : String) : Option PyFloatLit :=
  let cs := ((s.data.dropWhile isPySpace).reverse.dropWhile isPySpace).reverse
  let cs := cs.map pyLowerChar
  match cs with
  | '+' :: rest => pyFloatNamed rest false
  | '-' :: rest => pyFloatNamed rest true
  | _ => pyFloatNamed cs false

/-- Model of `_validate_num` (src/hwmc/dsa_labjack.py lines 729-740):
a string is parsed with `float()` (`None` on `ValueError`); a float is
returned as is; an int — and a bool, since Python's `bool` is a subclass
of `int` — is converted with `float()`; anything else yields `None`. -/
def validate_num : PyVal → Option PyFloatLit
  | PyVal.str s => pyFloatOfString s
  | PyVal.float f => some f
  | PyVal.int z => some (PyFloatLit.fin (z : ℚ))
  | PyVal.bool b => some (PyFloatLit.fin (if b then 1 else 0))
  | PyVal.none => Option.none

/-- Model of `DsaAntLabJack._motor_cmd` (src/hwmc/dsa_labjack.py lines
669-687) for `cmd = 'move'` with a non-`None` argument: write the target
position to `USER_RAM1_F32`, then the move code 2 to `USER_RAM0_U16`. -/
def motor_cmd_move (arg : PyFloatLit) : List HwWrite :=
  [HwWrite.reg "USER_RAM1_F32" (PyVal.float arg),
   HwWrite.reg "USER_RAM0_U16" (PyVal.int 2)]

/-- Model of `DsaAntLabJack._move_ang` (src/hwmc/dsa_labjack.py lines
701-717): validate the argument; if it converts, log and issue the move;
otherwise do nothing. -/
def move_ang (pos : PyVal) : List HwWrite :=
  match validate_num pos with
  | some f => motor_cmd_move f
  | Option.none => []

/-- Model of `DsaAntLabJack._halt` with `_motor_cmd('halt')`
(src/hwmc/dsa_labjack.py lines 689-699): write halt code 1 to
`USER_RAM0_U16`. -/
def halt_cmd : List HwWrite :=
  [HwWrite.reg "USER_RAM0_U16" (PyVal.int 1)]

/-- Model of `DsaAntLabJack.switch_noise` (src/hwmc/dsa_labjack.py lines
636-667) for a fixed polarization port: `state is False` writes 1,
`state is True` writes 0 (the hardware sense is inverted); any other
value is logged as invalid and nothing is written. -/
def switch_noise (port : String) (state : PyVal) : List HwWrite :=
  match state with
  | PyVal.bool false => [HwWrite.reg port (PyVal.int 1)]
  | PyVal.bool true => [HwWrite.reg port (PyVal.int 0)]
  | _ => []

/-- The keys of the per-role command table `self.lj_ant_cmds`
(src/hwmc/dsa_labjack.py lines 351-356). -/
def lj_ant_cmds : List String :=
  ["noise_a_on", "noise_b_on", "move", "halt", "script"]

/-- Dispatch to the handler bound to a command-table key, called with one
positional argument, as `self.lj_ant_cmds[cmd_name](args)` does.
`Constants.NOISE_A = "EIO3"` and `Constants.NOISE_B = "EIO4"`
(src/hwmc/dsa_labjack.py lines 926-927). -/
def dispatch1 (cmd_name : String) (args : PyVal) : List HwWrite :=
  if cmd_name = "noise_a_on" then switch_noise "EIO3" args
  else if cmd_name = "noise_b_on" then switch_noise "EIO4" args
  else if cmd_name = "move" then move_ang args
  else if cmd_name = "halt" then halt_cmd
  else [HwWrite.script args]

/-- A command document as decoded from JSON: the optional `"cmd"` field,
the optional `"val"` field, and the number of any other keys. -/
structure CmdDoc where
  cmd : Option PyVal
  val : Option PyVal
  extra : ℕ
deriving DecidableEq

/-- Python `len(cmd)` on the command dictionary. -/
def pyLen (d : CmdDoc) : ℕ :=
  (if d.cmd.isSome then 1 else 0) + (if d.val.isSome then 1 else 0) + d.extra

/-- Python `args.lower()` applied when the argument is a string
(`if isinstance(args, str): args = args.lower()`). -/
def pyLowerVal : PyVal → PyVal
  | PyVal.str s => PyVal.str (pyLowerStr s)
  | v => v

/-- Model of `DsaAntLabJack.execute_cmd` (src/hwmc/dsa_labjack.py lines
518-541).  `cmd['cmd']` raises `KeyError` when absent; `.lower()` raises
`AttributeError` on a non-string; a known command name with `len(cmd) > 1`
reads `cmd['val']` (raising `KeyError` when absent, e.g. when the extra
key is not `"val"`), lower-cases a string argument, and calls the handler
with it; with `len(cmd) == 1` the handler is called with no argument,
which raises `TypeError` since every bound handler takes one positional
parameter; an unknown name is logged as an error and dropped. -/
def execute_cmd (cmd : CmdDoc) : Except PyErr (List HwWrite) :=
  match cmd.cmd with
  | Option.none => Except.error PyErr.keyError
  | some c =>
    match c with
    | PyVal.str cmd_name₀ =>
      let cmd_name := pyLowerStr cmd_name₀
      if cmd_name ∈ lj_ant_cmds then
        if 1 < pyLen cmd then
          match cmd.val with
          | some args => Except.ok (dispatch1 cmd_name (pyLowerVal args))
          | Option.none => Except.error PyErr.keyError
        else Except.error PyErr.typeError
      else Except.ok []
    | _ => Except.error PyErr.attributeError

/-- Model of `DsaAntLabJack.cmd_callback` (src/hwmc/dsa_labjack.py lines
543-551): decode the event value as JSON (`Option.none` models a value
`json.loads` rejects, which raises), then execute the command. -/
def cmd_callback (decoded : Option CmdDoc) : Except PyErr (List HwWrite) :=
  match decoded with
  | Option.none => Except.error PyErr.jsonError
  | some d => execute_cmd d

/-- Python `str.strip()`: remove leading and trailing whitespace. -/
def pyStrip (s : String) : String :=
  String.mk (((s.data.dropWhile isPySpace).reverse.dropWhile isPySpace).reverse)

/-- `re.split('--', line)[0]`: everything before the first occurrence of
the comment marker `--`. -/
def beforeComment : List Char → List Char
  | [] => []
  | '-' :: '-' :: _ => []
  | c :: cs => c :: beforeComment cs

/-- `re.split(' *$', new_line)[0]`: the line with its trailing run of
spaces removed. -/
def dropTrailingSpaces (cs : List Char) : List Char :=
  (cs.reverse.dropWhile (· = ' ')).reverse

/-- The accumulation part of `LuaScriptUtilities.lua_compress`
(src/hwmc/lua_script_utilities.py lines 92-102), before the terminator
check.  With `compress` true, each line is stripped, cut at the comment
marker and shorn of trailing spaces; a line left non-empty is combined
with the accumulator by `compressed_script.join([new_line, '\n'])`, which
in Python is `new_line + compressed_script + '\n'` (the accumulator is
the join separator).  With `compress` false, the result is
`''.join(script_lines)`. -/
def luaCompressCore (script_lines : List String) (compress : Bool) : String :=
  if compress then
    script_lines.foldl
      (fun compressed_script line =>
        let stripped := pyStrip line
        let new_line := String.mk (dropTrailingSpaces (beforeComment stripped.data))
        if new_line ≠ "" then new_line ++ compressed_script ++ "\n"
        else compressed_script)
      ""
  else String.join script_lines

/-- Model of `LuaScriptUtilities.lua_compress`
(src/hwmc/lua_script_utilities.py lines 84-107): accumulate the
(optionally compressed) script, then check `compressed_script[-1]`
— which raises `IndexError` on an empty string — and append a final
`'\0'` when the last character is not already one. -/
def lua_compress (script_lines : List String) (compress : Bool) : Except PyErr String :=
  let compressed_script := luaCompressCore script_lines compress
  match compressed_script.data.getLast? with
  | Option.none => Except.error PyErr.indexError
  | some c =>
    if c ≠ '\x00' then Except.ok (compressed_script ++ "\x00")
    else Except.ok compressed_script

/-- `Config.LUA_DIR` (src/hwmc/common.py line 21) — note: no trailing
path separator. -/
def LUA_DIR : String := "../lua-scripts"

/-- The candidate list of `LuaScriptUtilities.validate_file`
(src/hwmc/lua_script_utilities.py lines 62-66), in order: the literal
name, name plus extension, `CONF.LUA_DIR + name`, and
`CONF.LUA_DIR + name + '.lua'` (string concatenation, no separator). -/
def validate_candidates (lua_script_name : String) : List String :=
  [lua_script_name,
   lua_script_name ++ ".lua",
   LUA_DIR ++ lua_script_name,
   LUA_DIR ++ lua_script_name ++ ".lua"]

/-- Model of `LuaScriptUtilities.validate_file`
(src/hwmc/lua_script_utilities.py lines 59-77): scan the candidates in
order and return the first one that exists as a file (`some`), or `none`
(the `err = True` flag) when no candidate exists.  `isFile` abstracts
`Path(name).is_file()`. -/
def validate_file (isFile : String → Bool) (lua_script_name : String) : Option String :=
  (validate_candidates lua_script_name).find? isFile

lemma bit_extract (w k : ℕ) : decide ((w >>> k) &&& 1 ≠ 0) = w.testBit k := by
  rw [Nat.testBit_to_div_mod, Nat.and_one_is_mod, Nat.shiftRight_eq_div_pow]
  rcases Nat.mod_two_eq_zero_or_one (w / 2 ^ k) with h | h <;> simp [h]

lemma bit_extract_inv (w k : ℕ) : decide (1 - ((w >>> k) &&& 1) ≠ 0) = !w.testBit k := by
  rw [Nat.testBit_to_div_mod, Nat.and_one_is_mod, Nat.shiftRight_eq_div_pow]
  rcases Nat.mod_two_eq_zero_or_one (w / 2 ^ k) with h | h <;> simp [h]

/-- C6: for every raw digital status word `w`, the decoder yields
`emergency_off = bit 8 of w`, `brake_on = NOT bit 13`,
`at_north_lim = NOT bit 20`, `at_south_lim = NOT bit 21`,
`fan_err = bit 22`, `noise_a_on = NOT bit 11`, `noise_b_on = NOT bit 12`. -/
theorem decode_dig_bits (w : ℕ) :
    (decode_dig w).emergency_off = w.testBit 8 ∧
    (decode_dig w).brake_on = !w.testBit 13 ∧
    (decode_dig w).at_north_lim = !w.testBit 20 ∧
    (decode_dig w).at_south_lim = !w.testBit 21 ∧
    (decode_dig w).fan_err = w.testBit 22 ∧
    (decode_dig w).noise_a_on = !w.testBit 11 ∧
    (decode_dig w).noise_b_on = !w.testBit 12 := by
  refine ⟨?_, ?_, ?_, ?_, ?_, ?_, ?_⟩ <;>
    simp only [decode_dig, bit_extract, bit_extract_inv]

/-- C1 (code bug): for every antenna session whose store connection is
valid and whose calibration key holds a stored document, the calibration
fetch raises `TypeError` — `_check_cal` (and likewise `_execute_cal`)
passes three positional arguments to the two-parameter
`write_config_to_flash` — so the table is never applied. -/
theorem check_cal_always_typeError (cal_table : List PyFloat) (flash : ℕ → PyFloat) :
    check_cal true (some cal_table) flash = Except.error PyErr.typeError := rfl

/-- C2 (code bug): a connection-open failure for one module zeroes the
modules-remaining counter (`self.num_found -= self.num_found`) and
returns immediately, abandoning every remaining module — instead of
decrementing by one and continuing the scan. -/
theorem discoverScan_aborts_on_open_failure (m : LJModule) (rest : List LJModule)
    (st : DiscoverState) (h : m.openOk = false) :
    discoverScan (m :: rest) st = { st with num_found := 0 } := by
  unfold discoverScan
  rw [h]
  simp

/-- Witness for C2: with two discovered modules where the first open
fails and the second is a healthy antenna, discovery returns with the
counter zeroed and the antenna map empty — the second module is never
scanned. -/
theorem discoverScan_aborts_on_open_failure_witness :
    (LJModule.mk false ANT_TYPE 1).openOk = false ∧
    discoverScan [⟨false, ANT_TYPE, 1⟩, ⟨true, ANT_TYPE, 2⟩] ⟨2, [], []⟩ =
      ⟨0, [], []⟩ :=
  ⟨rfl, discoverScan_aborts_on_open_failure ⟨false, ANT_TYPE, 1⟩ [⟨true, ANT_TYPE, 2⟩] ⟨2, [], []⟩ rfl⟩

lemma cal_check_of_tol (cal : List PyFloat) : ∀ (addr : ℕ) (flash : ℕ → PyFloat),
    (∀ i (hi : i < cal.length), ∃ a q, flash (addr + 4 * i) = PyFloat.val a ∧
      cal.get ⟨i, hi⟩ = PyFloat.val q ∧ |a - q| ≤ 1 / 1000) →
    cal_check cal addr flash = true := by
  induction cal with
  | nil => intro addr flash _; rfl
  | cons v rest ih =>
    intro addr flash h
    obtain ⟨a, q, ha, hv, htol⟩ := h 0 (Nat.succ_pos _)
    have ha' : flash addr = PyFloat.val a := by simpa using ha
    have hv' : v = PyFloat.val q := by simpa using hv
    have htail : cal_check rest (addr + 4) flash = true := by
      refine ih (addr + 4) flash ?_
      intro i hi
      obtain ⟨a', q', h1, h2, h3⟩ := h (i + 1) (Nat.succ_lt_succ hi)
      refine ⟨a', q', ?_, by simpa using h2, h3⟩
      have : addr + 4 + 4 * i = addr + 4 * (i + 1) := by ring
      rw [this]
      exact h1
    simp only [cal_check, ha', hv', htail, Bool.and_true, pyNe, pySub, pyAbs, pyGt]
    simp
    linarith [htol]

/-- C5: the calibration writer is idempotent — when every stored slot is
a non-NaN value within absolute tolerance 1/1000 of the corresponding
candidate value, `write_config_to_flash` issues no flash erase and no
flash write (its operation list is empty). -/
theorem write_config_idempotent (flash : ℕ → PyFloat) (cal_table : List PyFloat)
    (h : ∀ i (hi : i < cal_table.length), ∃ a q, flash (4 * i) = PyFloat.val a ∧
      cal_table.get ⟨i, hi⟩ = PyFloat.val q ∧ |a - q| ≤ 1 / 1000) :
    write_config_ops flash cal_table = [] := by
  have hc : cal_check cal_table 0 flash = true := by
    refine cal_check_of_tol cal_table 0 flash ?_
    intro i hi
    simpa using h i hi
  simp [write_config_ops, hc]

/-- Witness for C5: a one-slot table equal to the stored value produces
no flash operations. -/
theorem write_config_idempotent_witness :
    write_config_ops (fun _ => PyFloat.val 1) [PyFloat.val 1] = [] := by
  refine write_config_idempotent (fun _ => PyFloat.val 1) [PyFloat.val 1] ?_
  intro i hi
  simp only [List.length_singleton] at hi
  interval_cases i
  exact ⟨1, 1, rfl, rfl, by norm_num⟩

lemma cal_check_false_of_nan (cal : List PyFloat) : ∀ (addr : ℕ) (flash : ℕ → PyFloat) (i : ℕ),
    i < cal.length → flash (addr + 4 * i) = PyFloat.nan → cal_check cal addr flash = false := by
  induction cal with
  | nil => intro addr flash i hi _; exact absurd hi (by simp)
  | cons v rest ih =>
    intro addr flash i hi hnan
    cases i with
    | zero =>
      have h0 : flash addr = PyFloat.nan := by simpa using hnan
      simp [cal_check, h0, pyNe]
    | succ j =>
      have hj : j < rest.length := by simpa using hi
      have hshift : flash (addr + 4 + 4 * j) = PyFloat.nan := by
        have : addr + 4 + 4 * j = addr + 4 * (j + 1) := by ring
        rw [this]
        exact hnan
      have htail : cal_check rest (addr + 4) flash = false := ih (addr + 4) flash j hj hshift
      simp [cal_check, htail]

/-- Counterexample to C4 as stated: a candidate NaN in the (only) slot,
compared against the non-NaN stored value 1, does not trigger any flash
erase or write — `abs(old - value) > 0.001` evaluates to `False` when the
difference is NaN, so the slot counts as matching. -/
theorem candidate_nan_no_write :
    write_config_ops (fun _ => PyFloat.val 1) [PyFloat.nan] = [] := by
  have hc : cal_check [PyFloat.nan] 0 (fun _ => PyFloat.val 1) = true := by
    simp [cal_check, pyNe, pySub, pyAbs, pyGt]
  simp [write_config_ops, hc]

/-- C4 (amended): a stored NaN in any compared slot always forces a
mismatch, so the full erase-and-sequential-write sequence is issued; a
candidate NaN compared against a non-NaN stored value, however, does not
trigger a write (the NaN difference comparison is false). -/
theorem stored_nan_forces_write :
    (∀ (flash : ℕ → PyFloat) (cal_table : List PyFloat) (i : ℕ), i < cal_table.length →
      flash (4 * i) = PyFloat.nan →
      write_config_ops flash cal_table = FlashOp.erase :: (writeSeq cal_table 0 ++
        [FlashOp.luaStop, FlashOp.luaStop, FlashOp.luaStart])) ∧
    write_config_ops (fun _ => PyFloat.val 1) [PyFloat.nan] = [] := by
  constructor
  · intro flash cal_table i hi hnan
    have hc : cal_check cal_table 0 flash = false := by
      refine cal_check_false_of_nan cal_table 0 flash i hi ?_
      simpa using hnan
    simp [write_config_ops, hc]
  · have hc : cal_check [PyFloat.nan] 0 (fun _ => PyFloat.val 1) = true := by
      simp [cal_check, pyNe, pySub, pyAbs, pyGt]
    simp [write_config_ops, hc]

/-- Witness for C4 (amended): a stored NaN under a one-slot candidate
table causes the erase and the sequential write of the table. -/
theorem stored_nan_forces_write_witness :
    (0 : ℕ) < [PyFloat.val 1].length ∧
    write_config_ops (fun _ => PyFloat.nan) [PyFloat.val 1] =
      FlashOp.erase :: (writeSeq [PyFloat.val 1] 0 ++
        [FlashOp.luaStop, FlashOp.luaStop, FlashOp.luaStart]) :=
  ⟨by simp, stored_nan_forces_write.1 (fun _ => PyFloat.nan) [PyFloat.val 1] 0 (by simp) rfl⟩

/-- Counterexample to C3 as stated: the malformed command document
`{"val": 1}` — decodable JSON but missing the command name — makes
`execute_cmd` raise `KeyError` at `cmd['cmd']`, so an exception escapes
the watch callback instead of the command being logged and dropped. -/
theorem execute_cmd_missing_name_raises :
    execute_cmd ⟨Option.none, some (PyVal.int 1), 0⟩ = Except.error PyErr.keyError := rfl

/-- C3 (amended): a decodable command document naming a command outside
the per-role table is logged and dropped — no exception, no hardware
write; but a malformed document is not dropped: an undecodable value
raises from `json.loads` inside the callback; a document missing the
command name raises `KeyError` at `cmd['cmd']`; a document with a known
command name and some other key but no value raises `KeyError` at
`cmd['val']`; and a known command name delivered alone (`len(cmd) == 1`)
raises `TypeError`, since every bound handler takes one positional
argument.  In every such case no hardware write is issued. -/
theorem execute_cmd_unknown_dropped_malformed_raises :
    (∀ (s : String) (v : Option PyVal) (e : ℕ), pyLowerStr s ∉ lj_ant_cmds →
      execute_cmd ⟨some (PyVal.str s), v, e⟩ = Except.ok []) ∧
    cmd_callback Option.none = Except.error PyErr.jsonError ∧
    (∀ (v : Option PyVal) (e : ℕ),
      execute_cmd ⟨Option.none, v, e⟩ = Except.error PyErr.keyError) ∧
    (∀ (s : String) (e : ℕ), pyLowerStr s ∈ lj_ant_cmds →
      execute_cmd ⟨some (PyVal.str s), Option.none, e + 1⟩ = Except.error PyErr.keyError) ∧
    (∀ (s : String), pyLowerStr s ∈ lj_ant_cmds →
      execute_cmd ⟨some (PyVal.str s), Option.none, 0⟩ = Except.error PyErr.typeError) := by
  refine ⟨?_, rfl, ?_, ?_, ?_⟩
  · intro s v e hs
    simp [execute_cmd, hs]
  · intro v e
    rfl
  · intro s e hs
    simp [execute_cmd, pyLen, hs]
  · intro s hs
    simp [execute_cmd, pyLen, hs]

/-- Witness for C3 (amended): the unknown command name `"frobnicate"`
(with a boolean argument) is dropped with no writes; the known command
`"move"` with an extra key but no value raises `KeyError`, and alone
raises `TypeError`. -/
theorem execute_cmd_unknown_dropped_witness :
    pyLowerStr "frobnicate" ∉ lj_ant_cmds ∧
    execute_cmd ⟨some (PyVal.str "frobnicate"), some (PyVal.bool true), 0⟩ = Except.ok [] ∧
    pyLowerStr "move" ∈ lj_ant_cmds ∧
    execute_cmd ⟨some (PyVal.str "move"), Option.none, 1⟩ = Except.error PyErr.keyError ∧
    execute_cmd ⟨some (PyVal.str "move"), Option.none, 0⟩ = Except.error PyErr.typeError :=
  ⟨by decide,
   execute_cmd_unknown_dropped_malformed_raises.1 "frobnicate"
     (some (PyVal.bool true)) 0 (by decide),
   by decide,
   execute_cmd_unknown_dropped_malformed_raises.2.2.2.1 "move" 0 (by decide),
   execute_cmd_unknown_dropped_malformed_raises.2.2.2.2 "move" (by decide)⟩

/-- C7: the command name `"MOVE"` matches the move command
case-insensitively; a string argument that `float()` accepts is coerced
to its `float()` value (finite, infinite or NaN) and dispatched as a
write of the target-position register `USER_RAM1_F32` strictly before
the write of the move-flag register `USER_RAM0_U16`; an ASCII string
argument `float()` rejects produces no hardware write (the ASCII
restriction is the scope on which `pyFloatOfString` models `float()`
exactly — CPython additionally normalizes non-ASCII digits and spaces);
and the unknown command `{"cmd": "bogus"}` is logged and produces zero
hardware writes. -/
theorem execute_cmd_move_dispatch :
    (∀ (s : String) (f : PyFloatLit), pyFloatOfString (pyLowerStr s) = some f →
      execute_cmd ⟨some (PyVal.str "MOVE"), some (PyVal.str s), 0⟩ =
        Except.ok [HwWrite.reg "USER_RAM1_F32" (PyVal.float f),
                   HwWrite.reg "USER_RAM0_U16" (PyVal.int 2)]) ∧
    (∀ (s : String), (∀ c ∈ s.data, c.toNat ≤ 127) →
      pyFloatOfString (pyLowerStr s) = Option.none →
      execute_cmd ⟨some (PyVal.str "MOVE"), some (PyVal.str s), 0⟩ = Except.ok []) ∧
    execute_cmd ⟨some (PyVal.str "bogus"), Option.none, 0⟩ = Except.ok [] := by
  have hlow : pyLowerStr "MOVE" = "move" := rfl
  refine ⟨?_, ?_, rfl⟩
  · intro s f hq
    simp [execute_cmd, hlow, lj_ant_cmds, pyLen, dispatch1, pyLowerVal, move_ang,
      validate_num, hq, motor_cmd_move]
  · intro s _ hq
    simp [execute_cmd, hlow, lj_ant_cmds, pyLen, dispatch1, pyLowerVal, move_ang,
      validate_num, hq]

/-- Witness for C7: `{"cmd": "MOVE", "val": "45.0"}` coerces to the
finite float 45 and writes position then move flag; `"inf"` coerces to
`float('inf')` and likewise issues both writes; `{"cmd": "MOVE",
"val": "north"}` writes nothing. -/
theorem execute_cmd_move_dispatch_witness :
    pyFloatOfString (pyLowerStr "45.0") = some (PyFloatLit.fin 45) ∧
    execute_cmd ⟨some (PyVal.str "MOVE"), some (PyVal.str "45.0"), 0⟩ =
      Except.ok [HwWrite.reg "USER_RAM1_F32" (PyVal.float (PyFloatLit.fin 45)),
                 HwWrite.reg "USER_RAM0_U16" (PyVal.int 2)] ∧
    pyFloatOfString (pyLowerStr "inf") = some (PyFloatLit.inf false) ∧
    execute_cmd ⟨some (PyVal.str "MOVE"), some (PyVal.str "inf"), 0⟩ =
      Except.ok [HwWrite.reg "USER_RAM1_F32" (PyVal.float (PyFloatLit.inf false)),
                 HwWrite.reg "USER_RAM0_U16" (PyVal.int 2)] ∧
    (∀ c ∈ ("north" : String).data, c.toNat ≤ 127) ∧
    pyFloatOfString (pyLowerStr "north") = Option.none ∧
    execute_cmd ⟨some (PyVal.str "MOVE"), some (PyVal.str "north"), 0⟩ = Except.ok [] := by
  have h45 : pyFloatOfString (pyLowerStr "45.0") = some (PyFloatLit.fin 45) := by
    have h1 : pyFloatOfString (pyLowerStr "45.0") =
        some (PyFloatLit.fin ((45 : ℕ) + ((0 : ℕ) : ℚ) / 10 ^ (1 : ℕ))) := rfl
    rw [h1]
    norm_num
  have hinf : pyFloatOfString (pyLowerStr "inf") = some (PyFloatLit.inf false) := rfl
  have hn : pyFloatOfString (pyLowerStr "north") = Option.none := rfl
  exact ⟨h45, execute_cmd_move_dispatch.1 "45.0" (PyFloatLit.fin 45) h45,
    hinf, execute_cmd_move_dispatch.1 "inf" (PyFloatLit.inf false) hinf,
    by decide, hn, execute_cmd_move_dispatch.2.1 "north" (by decide) hn⟩

/-- C8 (code bug): compressing the two-line script `["a\n", "b\n"]` does
not produce the lines in order with their newlines (`"a\nb\n\0"`); the
accumulator of `lua_compress` is used as the `str.join` separator, so
the result is `"ba\n\n\0"` — lines reversed, newlines bunched at the
end — contradicting the function's own docstring. -/
theorem lua_compress_scrambles_lines :
    lua_compress ["a\n", "b\n"] true = Except.ok "ba\n\n\x00" ∧
    ("ba\n\n\x00" : String) ≠ "a\nb\n\x00" :=
  ⟨rfl, by decide⟩

/-- C9 (code bug): for the bare script name `"antenna_control"` with only
`"../lua-scripts/antenna_control.lua"` present on disk, resolution fails:
the configured directory `"../lua-scripts"` is concatenated without a
path separator, so the candidates tried are `"antenna_control"`,
`"antenna_control.lua"`, `"../lua-scriptsantenna_control"` and
`"../lua-scriptsantenna_control.lua"` — none of which is the existing
file — and the not-found flag is returned. -/
theorem validate_file_misses_script_dir :
    validate_candidates "antenna_control" =
      ["antenna_control", "antenna_control.lua",
       "../lua-scriptsantenna_control", "../lua-scriptsantenna_control.lua"] ∧
    validate_file (fun p => p == "../lua-scripts/antenna_control.lua") "antenna_control" =
      Option.none :=
  ⟨rfl, rfl⟩

